import Mathlib

/-!
Verification of the RCA (root cause analysis) core of the repository:
a shallow embedding of `demo_specs/scripts/generate_rca_report.py`
(class `RCAAnalyzer`): finding extraction, correlation, risk scoring and
result aggregation, together with theorems settling the specified
properties of those operations.

Conventions of the embedding:
- Python dict subscripting `d['k']` on a possibly-absent key is modelled by
  `Option` fields together with `req`, which returns `Except.error` exactly
  where Python raises `KeyError`; `d.get('k', default)` is modelled by
  `Option.getD`.
- Python's `str.lower()` is `toLowerStr`; Python's substring test
  `needle in hay` is `strContains hay needle`.
- Python sets of package names (`{f['package'] for f in ...}`) are `Finset
  String` built with `List.toFinset`; `list(set(...))` is `List.dedup`.
- Numeric CVSS scores are abstracted to `Nat` (no claim inspects their
  values; the extractor only copies them with default `0`).
-/

/-- Python `str.lower()`: lowercase every character. -/
def toLowerStr (s : String) : String := String.mk (s.data.map Char.toLower)

/-- Helper for `strContains`: does the second character list start with the
first one? -/
def beginsWith : List Char → List Char → Bool
  | [], _ => true
  | _ :: _, [] => false
  | a :: s, b :: t => a == b && beginsWith s t

/-- Helper for `strContains`: does the needle occur at some position of the
haystack? -/
def subSearch (needle : List Char) : List Char → Bool
  | [] => needle.isEmpty
  | c :: rest => beginsWith needle (c :: rest) || subSearch needle rest

/-- Python's substring test `needle in hay` on strings. -/
def strContains (hay needle : String) : Bool := subSearch needle.data hay.data

/-- Python dict subscripting `d[k]`: raises `KeyError` when the key is
absent, modelled as `Except.error`. -/
def req (k : String) : Option α → Except String α
  | some a => .ok a
  | none => .error ("KeyError: " ++ k)

/-- One entry of the Trivy vulnerability report's `findings` list
(`data['trivy']['report']['findings']`). Fields are `Option` because the
Python dict may lack any key; `analyze_vulnerabilities` subscripts
`severity`, `vulnerability_id`, `package_name` and `description` directly
(KeyError if absent) and uses `.get('cvss_score', 0)`. -/
structure VulnRecord where
  vulnerability_id : Option String
  package_name : Option String
  severity : Option String
  cvss_score : Option Nat
  description : Option String
deriving DecidableEq

/-- One entry of the CIS benchmark report's `failed_checks_details` list. -/
structure ComplianceRecord where
  id : Option String
  description : Option String
  severity : Option String
  remediation : Option String
deriving DecidableEq

/-- One entry of the Trivy report's `misconfigurations` list. -/
structure MisconfigRecord where
  title : Option String
  severity : Option String
  message : Option String
  resolution : Option String
deriving DecidableEq

/-- A network-policy document as loaded by `load_security_data`: filename
plus full text content (both always present — the loader reads them from
the file system). -/
structure PolicyDoc where
  filename : String
  content : String
deriving DecidableEq

/-- A log document as loaded by `load_security_data`. -/
structure LogDoc where
  filename : String
  content : String
deriving DecidableEq

/-- One entry of the SBOM report's `packages` list. `analyze_dependencies`
subscripts `SPDXID` and `name` directly and uses `.get` with default
`'unknown'` for `versionInfo` and `licenseConcluded`. -/
structure SbomPackage where
  SPDXID : Option String
  name : Option String
  versionInfo : Option String
  licenseConcluded : Option String
deriving DecidableEq

/-- One entry of the SBOM report's `vulnerabilities` list. `affectedPackages`
is read with `.get('affectedPackages', [])`. -/
structure SbomVuln where
  name : Option String
  severity : Option String
  affectedPackages : Option (List String)
deriving DecidableEq

/-- A finding appended to `self.findings['vulnerabilities']`. -/
structure VulnFinding where
  id : String
  package : String
  severity : String
  cvss_score : Nat
  description : String
  impact : String
deriving DecidableEq

/-- A finding appended to `self.findings['compliance_failures']`. -/
structure ComplianceFinding where
  id : String
  description : String
  severity : String
  remediation : String
  impact : String
deriving DecidableEq

/-- A finding appended to `self.findings['misconfigurations']`. The Python
dict keys are `type`, `title`, `severity`, `message`, `resolution`. -/
structure MisconfigFinding where
  type : String
  title : String
  severity : String
  message : String
  resolution : String
deriving DecidableEq

/-- A finding appended to `self.findings['dependencies']`. -/
structure DepFinding where
  package : String
  version : String
  vulnerability : String
  severity : String
  license : String
deriving DecidableEq

/-- A finding appended to `self.findings['application_errors']`. The two
emission sites use dict keys `code` resp. `status` for the second field;
both are modelled by `detail`. -/
structure AppErrorFinding where
  type : String
  detail : String
  message : String
  source : String
  impact : String
deriving DecidableEq

/-- `RCAAnalyzer.analyze_vulnerabilities`: iterate the Trivy `findings`
list; keep an entry exactly when `vuln['severity'] in ['CRITICAL', 'HIGH']`
(exact string comparison), copying its fields into a finding. -/
def analyze_vulnerabilities : List VulnRecord → Except String (List VulnFinding)
  | [] => .ok []
  | v :: rest => do
    let sev ← req "severity" v.severity
    if sev ∈ ["CRITICAL", "HIGH"] then
      let vid ← req "vulnerability_id" v.vulnerability_id
      let pkg ← req "package_name" v.package_name
      let desc ← req "description" v.description
      let more ← analyze_vulnerabilities rest
      pure ({ id := vid, package := pkg, severity := sev,
              cvss_score := v.cvss_score.getD 0, description := desc,
              impact := "Container security vulnerability" } :: more)
    else
      analyze_vulnerabilities rest

/-- `RCAAnalyzer.analyze_compliance_failures`: iterate the CIS report's
`failed_checks_details`; keep an entry exactly when
`failure['severity'] in ['critical', 'high']` (exact string comparison). -/
def analyze_compliance_failures : List ComplianceRecord → Except String (List ComplianceFinding)
  | [] => .ok []
  | c :: rest => do
    let sev ← req "severity" c.severity
    if sev ∈ ["critical", "high"] then
      let cid ← req "id" c.id
      let desc ← req "description" c.description
      let rem ← req "remediation" c.remediation
      let more ← analyze_compliance_failures rest
      pure ({ id := cid, description := desc, severity := sev,
              remediation := rem,
              impact := "Kubernetes security compliance violation" } :: more)
    else
      analyze_compliance_failures rest

/-- First half of `RCAAnalyzer.analyze_misconfigurations`: iterate the Trivy
`misconfigurations` list, keeping entries with `severity == 'HIGH'`. -/
def analyze_misconfig_records : List MisconfigRecord → Except String (List MisconfigFinding)
  | [] => .ok []
  | m :: rest => do
    let sev ← req "severity" m.severity
    if sev = "HIGH" then
      let title ← req "title" m.title
      let msg ← req "message" m.message
      let res ← req "resolution" m.resolution
      let more ← analyze_misconfig_records rest
      pure ({ type := "container_misconfiguration", title := title,
              severity := sev, message := msg, resolution := res } :: more)
    else
      analyze_misconfig_records rest

/-- The network-policy test of `analyze_misconfigurations`: the document is
flagged when `'payment-service' in policy['filename']` and both `'allow'`
and `'any'` occur in `policy['content'].lower()`. -/
def policyFlagged (p : PolicyDoc) : Bool :=
  strContains p.filename "payment-service"
    && strContains (toLowerStr p.content) "allow"
    && strContains (toLowerStr p.content) "any"

/-- Second half of `RCAAnalyzer.analyze_misconfigurations`: one synthesized
`network_policy` finding per flagged policy document. -/
def policyFindings : List PolicyDoc → List MisconfigFinding
  | [] => []
  | p :: rest =>
    if policyFlagged p then
      { type := "network_policy", title := "Overly permissive network policy",
        severity := "HIGH",
        message := "Network policy allows traffic from any source",
        resolution := "Restrict network policies to specific namespaces/services" }
        :: policyFindings rest
    else
      policyFindings rest

/-- `RCAAnalyzer.analyze_misconfigurations`: Trivy misconfiguration entries
first, then the network-policy scan. -/
def analyze_misconfigurations (mrecs : List MisconfigRecord) (policies : List PolicyDoc) :
    Except String (List MisconfigFinding) := do
  let fs ← analyze_misconfig_records mrecs
  pure (fs ++ policyFindings policies)

/-- Inner loop of `RCAAnalyzer.analyze_dependencies` for one SBOM package:
iterate the SBOM `vulnerabilities`; when `package['SPDXID']` occurs in
`vuln.get('affectedPackages', [])`, emit one finding for the pair. -/
def depInner (p : SbomPackage) : List SbomVuln → Except String (List DepFinding)
  | [] => .ok []
  | v :: rest => do
    let spdx ← req "SPDXID" p.SPDXID
    if spdx ∈ v.affectedPackages.getD [] then
      let pname ← req "name" p.name
      let vname ← req "name" v.name
      let vsev ← req "severity" v.severity
      let more ← depInner p rest
      pure ({ package := pname, version := p.versionInfo.getD "unknown",
              vulnerability := vname, severity := vsev,
              license := p.licenseConcluded.getD "unknown" } :: more)
    else
      depInner p rest

/-- `RCAAnalyzer.analyze_dependencies`: nested loop over SBOM packages and
SBOM vulnerability entries. -/
def analyze_dependencies : List SbomPackage → List SbomVuln → Except String (List DepFinding)
  | [], _ => .ok []
  | p :: rest, vulns => do
    let fs ← depInner p vulns
    let more ← analyze_dependencies rest vulns
    pure (fs ++ more)

/-- Per-document part of `RCAAnalyzer.analyze_logs_and_events`: the HTTP 405
marker test and the crash-loop marker test. -/
def logAppErrors (d : LogDoc) : List AppErrorFinding :=
  (if strContains d.content "405"
      && strContains (toLowerStr d.content) "method not allowed" then
    [{ type := "http_error", detail := "405",
       message := "Method Not Allowed error detected", source := d.filename,
       impact := "API authentication/authorization issue" }]
   else []) ++
  (if strContains (toLowerStr d.content) "crashloopbackoff" then
    [{ type := "pod_failure", detail := "CrashLoopBackOff",
       message := "Pod repeatedly crashing", source := d.filename,
       impact := "Application stability issue" }]
   else [])

/-- `RCAAnalyzer.analyze_logs_and_events` over all loaded log documents. -/
def analyze_logs_and_events (logs : List LogDoc) : List AppErrorFinding :=
  logs.flatMap logAppErrors

/-- The `self.findings` dict of `RCAAnalyzer`: six category keys, as
initialized in `__init__`. `network_issues` is initialized to the empty
list and never written or read by any analyzer, so its element type is
unconstrained; `String` is used as a placeholder. -/
structure FindingsState where
  vulnerabilities : List VulnFinding
  compliance_failures : List ComplianceFinding
  misconfigurations : List MisconfigFinding
  dependencies : List DepFinding
  network_issues : List String
  application_errors : List AppErrorFinding
deriving DecidableEq

/-- The set `{f['package'] for f in self.findings['vulnerabilities']}`. -/
def vulnPackages (v : List VulnFinding) : Finset String :=
  (v.map (fun f => f.package)).toFinset

/-- The set `{f['package'] for f in self.findings['dependencies']}`. -/
def depPackages (d : List DepFinding) : Finset String :=
  (d.map (fun f => f.package)).toFinset

/-- A correlation record as built by `correlate_findings`. The Python dicts
carry `type`, `description`, `impact`; the description of the
`vulnerability_dependency_link` correlation interpolates the Python set
`vuln_packages & dep_packages`, which is modelled by the `linkedPackages`
field (empty for the two fixed-text correlations). -/
structure Correlation where
  type : String
  description : String
  linkedPackages : Finset String
  impact : String

/-- `RCAAnalyzer.correlate_findings`: the vulnerability-dependency package
intersection rule, then the compliance/misconfiguration co-occurrence rule,
then the application-error/network-policy rule, in source order. -/
def correlate_findings (st : FindingsState) : List Correlation :=
  (if (vulnPackages st.vulnerabilities ∩ depPackages st.dependencies).Nonempty then
    [{ type := "vulnerability_dependency_link",
       description := "Vulnerable packages found in SBOM",
       linkedPackages := vulnPackages st.vulnerabilities ∩ depPackages st.dependencies,
       impact := "Direct security vulnerability in application dependencies" }]
   else []) ++
  (if st.compliance_failures ≠ [] ∧ st.misconfigurations ≠ [] then
    [{ type := "compliance_config_link",
       description := "CIS compliance failures related to container and network misconfigurations",
       linkedPackages := ∅,
       impact := "Infrastructure security posture compromised" }]
   else []) ++
  (if st.application_errors ≠ [] ∧ st.misconfigurations ≠ [] then
    (if (st.misconfigurations.filter (fun f => f.type == "network_policy")) ≠ [] then
      [{ type := "network_error_link",
         description := "Application errors potentially caused by restrictive network policies",
         linkedPackages := ∅,
         impact := "Service availability affected by security controls" }]
     else [])
   else [])

/-- The dict returned by `RCAAnalyzer.assess_risk`. -/
structure RiskAssessment where
  overall_risk_level : String
  risk_score : Nat
  risk_factors : List String
  affected_components : List String
deriving DecidableEq

/-- Body of the vulnerabilities loop of `assess_risk`: `CRITICAL` adds 10
points and a factor string, `HIGH` adds 5 points and a factor string. -/
def vulnRiskStep (acc : Nat × List String) (f : VulnFinding) : Nat × List String :=
  if f.severity = "CRITICAL" then
    (acc.1 + 10, acc.2 ++ ["Critical vulnerability: " ++ f.id])
  else if f.severity = "HIGH" then
    (acc.1 + 5, acc.2 ++ ["High vulnerability: " ++ f.id])
  else acc

/-- Body of the compliance loop of `assess_risk`: `critical` adds 8 points,
`high` adds 4 points. -/
def complianceRiskStep (acc : Nat × List String) (f : ComplianceFinding) : Nat × List String :=
  if f.severity = "critical" then
    (acc.1 + 8, acc.2 ++ ["Critical compliance failure: " ++ f.id])
  else if f.severity = "high" then
    (acc.1 + 4, acc.2 ++ ["High compliance failure: " ++ f.id])
  else acc

/-- Body of the misconfigurations loop of `assess_risk`: `HIGH` adds
6 points. -/
def misconfigRiskStep (acc : Nat × List String) (f : MisconfigFinding) : Nat × List String :=
  if f.severity = "HIGH" then
    (acc.1 + 6, acc.2 ++ ["High misconfiguration: " ++ f.title])
  else acc

/-- The risk-level thresholds of `assess_risk`. -/
def riskLevel (score : Nat) : String :=
  if score ≥ 20 then "CRITICAL"
  else if score ≥ 10 then "HIGH"
  else if score ≥ 5 then "MEDIUM"
  else "LOW"

/-- `RCAAnalyzer.assess_risk`: accumulate `risk_score` and `risk_factors`
over vulnerabilities, then compliance failures, then misconfigurations;
derive the level from the final score; `affected_components` is
`list(set([...]))` over the target service and three fixed labels. -/
def assess_risk (target : String) (st : FindingsState) : RiskAssessment :=
  let acc1 := st.vulnerabilities.foldl vulnRiskStep (0, [])
  let acc2 := st.compliance_failures.foldl complianceRiskStep acc1
  let acc3 := st.misconfigurations.foldl misconfigRiskStep acc2
  { overall_risk_level := riskLevel acc3.1
    risk_score := acc3.1
    risk_factors := acc3.2
    affected_components :=
      List.dedup [target, "kubernetes-cluster", "network-infrastructure", "container-runtime"] }

/-- Points contributed to the risk score by one vulnerability finding
(the additions performed by `vulnRiskStep`). -/
def vulnPoints (f : VulnFinding) : Nat :=
  if f.severity = "CRITICAL" then 10 else if f.severity = "HIGH" then 5 else 0

/-- Factor strings contributed by one vulnerability finding. -/
def vulnFactorOf (f : VulnFinding) : List String :=
  if f.severity = "CRITICAL" then ["Critical vulnerability: " ++ f.id]
  else if f.severity = "HIGH" then ["High vulnerability: " ++ f.id]
  else []

/-- Points contributed by one compliance finding. -/
def compliancePoints (f : ComplianceFinding) : Nat :=
  if f.severity = "critical" then 8 else if f.severity = "high" then 4 else 0

/-- Factor strings contributed by one compliance finding. -/
def complianceFactorOf (f : ComplianceFinding) : List String :=
  if f.severity = "critical" then ["Critical compliance failure: " ++ f.id]
  else if f.severity = "high" then ["High compliance failure: " ++ f.id]
  else []

/-- Points contributed by one misconfiguration finding. -/
def misconfigPoints (f : MisconfigFinding) : Nat :=
  if f.severity = "HIGH" then 6 else 0

/-- Factor strings contributed by one misconfiguration finding. -/
def misconfigFactorOf (f : MisconfigFinding) : List String :=
  if f.severity = "HIGH" then ["High misconfiguration: " ++ f.title] else []

/-- One action dict of `generate_remediation_plan`. -/
structure RemediationAction where
  action : String
  priority : String
  estimated_time : String
  owner : String
deriving DecidableEq

/-- The plan dict returned by `generate_remediation_plan`, with its four
fixed buckets. -/
structure RemediationPlan where
  immediate_actions : List RemediationAction
  short_term_fixes : List RemediationAction
  long_term_improvements : List RemediationAction
  monitoring_recommendations : List String
deriving DecidableEq

/-- `RCAAnalyzer.generate_remediation_plan`. -/
def generate_remediation_plan (st : FindingsState) : RemediationPlan where
  immediate_actions :=
    st.vulnerabilities.flatMap (fun v =>
      if v.severity ∈ ["CRITICAL", "HIGH"] then
        [{ action := "Update " ++ v.package ++ " to fix " ++ v.id,
           priority := "CRITICAL", estimated_time := "2-4 hours",
           owner := "DevSecOps Team" }]
      else []) ++
    st.compliance_failures.flatMap (fun c =>
      if c.severity ∈ ["critical", "high"] then
        [{ action := c.remediation, priority := "HIGH",
           estimated_time := "1-2 hours", owner := "Platform Team" }]
      else [])
  short_term_fixes :=
    st.misconfigurations.map (fun m =>
      { action := m.resolution, priority := "MEDIUM",
        estimated_time := "4-8 hours", owner := "Development Team" })
  long_term_improvements := [
    { action := "Implement automated vulnerability scanning in CI/CD pipeline",
      priority := "MEDIUM", estimated_time := "1-2 weeks", owner := "DevSecOps Team" },
    { action := "Establish CIS benchmark compliance monitoring",
      priority := "MEDIUM", estimated_time := "1 week", owner := "Platform Team" },
    { action := "Implement SBOM generation and analysis in build process",
      priority := "LOW", estimated_time := "2-3 weeks", owner := "Development Team" }]
  monitoring_recommendations := [
    "Implement continuous vulnerability scanning",
    "Set up CIS compliance monitoring alerts",
    "Monitor network policy violations",
    "Track application error rates and patterns",
    "Regular SBOM analysis and dependency updates"]

/-- The aggregate analysis state assembled by `generate_report` and read by
the report renderers: the four `RCAAnalyzer` attributes `findings`,
`correlations`, `risk_assessment` and `remediation_plan`. -/
structure AnalysisState where
  findings : FindingsState
  correlations : List Correlation
  risk_assessment : RiskAssessment
  remediation_plan : RemediationPlan

/-- The names of the components of the aggregated analysis state handed to
the renderers (the `RCAAnalyzer` attributes populated by
`generate_report`). -/
def analysisResultFields : List String :=
  ["findings", "correlations", "risk_assessment", "remediation_plan"]

/-- The keys of the dict returned by `assess_risk`. -/
def riskAssessmentFields : List String :=
  ["overall_risk_level", "risk_score", "risk_factors", "affected_components"]

/-- The keys of the `self.findings` dict as initialized in
`RCAAnalyzer.__init__`. -/
def findingsCategories : List String :=
  ["vulnerabilities", "compliance_failures", "misconfigurations",
   "dependencies", "network_issues", "application_errors"]

/-- The keys of the dict returned by `generate_remediation_plan`. -/
def remediationPlanBuckets : List String :=
  ["immediate_actions", "short_term_fixes", "long_term_improvements",
   "monitoring_recommendations"]

/-! ## Helper lemmas -/

/-- The record filter applied by `analyze_vulnerabilities`: severity is
exactly `CRITICAL` or `HIGH`. -/
def vulnKeptPred (r : VulnRecord) : Bool :=
  decide (r.severity = some "CRITICAL" ∨ r.severity = some "HIGH")

/-- The record filter applied by `analyze_compliance_failures`: severity is
exactly `critical` or `high`. -/
def complianceKeptPred (r : ComplianceRecord) : Bool :=
  decide (r.severity = some "critical" ∨ r.severity = some "high")

theorem forall2_mem_left {α β : Type} {P : α → β → Prop} {l₁ : List α} {l₂ : List β}
    (h : List.Forall₂ P l₁ l₂) : ∀ a ∈ l₁, ∃ b ∈ l₂, P a b := by
  induction h with
  | nil => simp
  | cons hab _ ih =>
    intro a ha
    rcases ha with _ | ⟨_, ha⟩
    · exact ⟨_, by simp, hab⟩
    · obtain ⟨b, hb, hPb⟩ := ih a ha
      exact ⟨b, by simp [hb], hPb⟩

theorem forall2_map_eq {α β γ : Type} {g : α → γ} {k : β → γ} {l₁ : List α} {l₂ : List β}
    (h : List.Forall₂ (fun a b => g a = k b) l₁ l₂) : l₁.map g = l₂.map k := by
  induction h with
  | nil => rfl
  | cons hab _ ih => simp [hab, ih]

/-- Success characterization of `analyze_vulnerabilities`: the output
findings correspond one-to-one, in order, with the input records whose
severity is exactly `CRITICAL` or `HIGH`, agreeing on severity and id. -/
theorem analyze_vulnerabilities_spec {recs : List VulnRecord} {out : List VulnFinding}
    (h : analyze_vulnerabilities recs = .ok out) :
    List.Forall₂ (fun (f : VulnFinding) (r : VulnRecord) =>
        some f.severity = r.severity ∧ some f.id = r.vulnerability_id)
      out (recs.filter vulnKeptPred) := by
  induction recs generalizing out with
  | nil =>
    simp only [analyze_vulnerabilities, Except.ok.injEq] at h
    simp [← h]
  | cons v rest ih =>
    cases hs : v.severity with
    | none => simp [analyze_vulnerabilities, req, hs, Bind.bind, Except.bind] at h
    | some sev =>
      by_cases hk : sev ∈ ["CRITICAL", "HIGH"]
      · cases hid : v.vulnerability_id with
        | none =>
          simp [analyze_vulnerabilities, req, hs, hid, hk, Bind.bind, Except.bind] at h
        | some vid =>
          cases hpk : v.package_name with
          | none =>
            simp [analyze_vulnerabilities, req, hs, hid, hpk, hk, Bind.bind, Except.bind] at h
          | some pkg =>
            cases hde : v.description with
            | none =>
              simp [analyze_vulnerabilities, req, hs, hid, hpk, hde, hk,
                Bind.bind, Except.bind] at h
            | some desc =>
              cases hrec : analyze_vulnerabilities rest with
              | error e =>
                simp [analyze_vulnerabilities, req, hs, hid, hpk, hde, hk, hrec,
                  Bind.bind, Except.bind] at h
              | ok more =>
                simp only [analyze_vulnerabilities, req, hs, hid, hpk, hde, hk, hrec,
                  if_pos, Bind.bind, Except.bind, pure, Except.pure, Except.ok.injEq] at h
                have hkeep : vulnKeptPred v = true := by
                  simp only [vulnKeptPred, hs]
                  simp only [List.mem_cons, List.not_mem_nil, or_false] at hk
                  rcases hk with hk | hk <;> simp [hk]
                rw [List.filter_cons_of_pos hkeep, ← h]
                exact List.Forall₂.cons (by simp [hs, hid]) (ih hrec)
      · have hdrop : vulnKeptPred v = false := by
          simp only [vulnKeptPred, hs]
          simp only [List.mem_cons, List.mem_singleton, not_or] at hk
          simp [hk.1, hk.2]
        have hrest : analyze_vulnerabilities rest = .ok out := by
          simpa [analyze_vulnerabilities, req, hs, hk, Bind.bind, Except.bind] using h
        rw [List.filter_cons_of_neg (by simp [hdrop])]
        exact ih hrest

/-- Success characterization of `analyze_compliance_failures`. -/
theorem analyze_compliance_failures_spec {recs : List ComplianceRecord}
    {out : List ComplianceFinding}
    (h : analyze_compliance_failures recs = .ok out) :
    List.Forall₂ (fun (f : ComplianceFinding) (r : ComplianceRecord) =>
        some f.severity = r.severity ∧ some f.id = r.id)
      out (recs.filter complianceKeptPred) := by
  induction recs generalizing out with
  | nil =>
    simp only [analyze_compliance_failures, Except.ok.injEq] at h
    simp [← h]
  | cons c rest ih =>
    cases hs : c.severity with
    | none => simp [analyze_compliance_failures, req, hs, Bind.bind, Except.bind] at h
    | some sev =>
      by_cases hk : sev ∈ ["critical", "high"]
      · cases hid : c.id with
        | none =>
          simp [analyze_compliance_failures, req, hs, hid, hk, Bind.bind, Except.bind] at h
        | some cid =>
          cases hde : c.description with
          | none =>
            simp [analyze_compliance_failures, req, hs, hid, hde, hk,
              Bind.bind, Except.bind] at h
          | some desc =>
            cases hre : c.remediation with
            | none =>
              simp [analyze_compliance_failures, req, hs, hid, hde, hre, hk,
                Bind.bind, Except.bind] at h
            | some rem =>
              cases hrec : analyze_compliance_failures rest with
              | error e =>
                simp [analyze_compliance_failures, req, hs, hid, hde, hre, hk, hrec,
                  Bind.bind, Except.bind] at h
              | ok more =>
                simp only [analyze_compliance_failures, req, hs, hid, hde, hre, hk, hrec,
                  if_pos, Bind.bind, Except.bind, pure, Except.pure, Except.ok.injEq] at h
                have hkeep : complianceKeptPred c = true := by
                  simp only [complianceKeptPred, hs]
                  simp only [List.mem_cons, List.not_mem_nil, or_false] at hk
                  rcases hk with hk | hk <;> simp [hk]
                rw [List.filter_cons_of_pos hkeep, ← h]
                exact List.Forall₂.cons (by simp [hs, hid]) (ih hrec)
      · have hdrop : complianceKeptPred c = false := by
          simp only [complianceKeptPred, hs]
          simp only [List.mem_cons, List.mem_singleton, not_or] at hk
          simp [hk.1, hk.2]
        have hrest : analyze_compliance_failures rest = .ok out := by
          simpa [analyze_compliance_failures, req, hs, hk, Bind.bind, Except.bind] using h
        rw [List.filter_cons_of_neg (by simp [hdrop])]
        exact ih hrest

theorem vulnFoldEq (l : List VulnFinding) (a : Nat) (fs : List String) :
    l.foldl vulnRiskStep (a, fs) =
      (a + (l.map vulnPoints).sum, fs ++ l.flatMap vulnFactorOf) := by
  induction l generalizing a fs with
  | nil => simp
  | cons x rest ih =>
    by_cases h1 : x.severity = "CRITICAL"
    · simp only [List.foldl_cons, vulnRiskStep, vulnPoints, vulnFactorOf, h1, if_true,
        List.map_cons, List.sum_cons, List.flatMap_cons]
      rw [ih]
      simp [Nat.add_assoc]
    · by_cases h2 : x.severity = "HIGH"
      · simp only [List.foldl_cons, vulnRiskStep, vulnPoints, vulnFactorOf, h1, h2,
          if_false, if_true, List.map_cons, List.sum_cons, List.flatMap_cons]
        rw [ih]
        simp [Nat.add_assoc]
      · simp only [List.foldl_cons, vulnRiskStep, vulnPoints, vulnFactorOf, h1, h2,
          if_false, List.map_cons, List.sum_cons, List.flatMap_cons]
        rw [ih]
        simp

theorem complianceFoldEq (l : List ComplianceFinding) (a : Nat) (fs : List String) :
    l.foldl complianceRiskStep (a, fs) =
      (a + (l.map compliancePoints).sum, fs ++ l.flatMap complianceFactorOf) := by
  induction l generalizing a fs with
  | nil => simp
  | cons x rest ih =>
    by_cases h1 : x.severity = "critical"
    · simp only [List.foldl_cons, complianceRiskStep, compliancePoints, complianceFactorOf,
        h1, if_true, List.map_cons, List.sum_cons, List.flatMap_cons]
      rw [ih]
      simp [Nat.add_assoc]
    · by_cases h2 : x.severity = "high"
      · simp only [List.foldl_cons, complianceRiskStep, compliancePoints, complianceFactorOf,
          h1, h2, if_false, if_true, List.map_cons, List.sum_cons, List.flatMap_cons]
        rw [ih]
        simp [Nat.add_assoc]
      · simp only [List.foldl_cons, complianceRiskStep, compliancePoints, complianceFactorOf,
          h1, h2, if_false, List.map_cons, List.sum_cons, List.flatMap_cons]
        rw [ih]
        simp

theorem misconfigFoldEq (l : List MisconfigFinding) (a : Nat) (fs : List String) :
    l.foldl misconfigRiskStep (a, fs) =
      (a + (l.map misconfigPoints).sum, fs ++ l.flatMap misconfigFactorOf) := by
  induction l generalizing a fs with
  | nil => simp
  | cons x rest ih =>
    by_cases h1 : x.severity = "HIGH"
    · simp only [List.foldl_cons, misconfigRiskStep, misconfigPoints, misconfigFactorOf,
        h1, if_true, List.map_cons, List.sum_cons, List.flatMap_cons]
      rw [ih]
      simp [Nat.add_assoc]
    · simp only [List.foldl_cons, misconfigRiskStep, misconfigPoints, misconfigFactorOf,
        h1, if_false, List.map_cons, List.sum_cons, List.flatMap_cons]
      rw [ih]
      simp

theorem assess_risk_score_eq (t : String) (st : FindingsState) :
    (assess_risk t st).risk_score =
      (st.vulnerabilities.map vulnPoints).sum
      + (st.compliance_failures.map compliancePoints).sum
      + (st.misconfigurations.map misconfigPoints).sum := by
  simp [assess_risk, vulnFoldEq, complianceFoldEq, misconfigFoldEq, Nat.add_assoc]

theorem assess_risk_factors_eq (t : String) (st : FindingsState) :
    (assess_risk t st).risk_factors =
      st.vulnerabilities.flatMap vulnFactorOf
      ++ st.compliance_failures.flatMap complianceFactorOf
      ++ st.misconfigurations.flatMap misconfigFactorOf := by
  simp [assess_risk, vulnFoldEq, complianceFoldEq, misconfigFoldEq, List.append_assoc]

theorem assess_risk_level_eq (t : String) (st : FindingsState) :
    (assess_risk t st).overall_risk_level = riskLevel (assess_risk t st).risk_score := by
  simp [assess_risk]

theorem permFlatMap {α β : Type} (f : α → List β) {l l' : List α} (h : List.Perm l l') :
    List.Perm (l.flatMap f) (l'.flatMap f) := by
  have h2 : List.Perm (l.map f) (l'.map f) := h.map f
  simpa [List.flatMap_def] using h2.flatten

/-- Every finding emitted for a Trivy misconfiguration entry has type
`container_misconfiguration`. -/
theorem analyze_misconfig_records_types {mrecs : List MisconfigRecord}
    {out : List MisconfigFinding}
    (h : analyze_misconfig_records mrecs = .ok out) :
    ∀ f ∈ out, f.type = "container_misconfiguration" := by
  induction mrecs generalizing out with
  | nil =>
    simp only [analyze_misconfig_records, Except.ok.injEq] at h
    simp [← h]
  | cons m rest ih =>
    cases hs : m.severity with
    | none => simp [analyze_misconfig_records, req, hs, Bind.bind, Except.bind] at h
    | some sev =>
      by_cases hk : sev = "HIGH"
      · cases hti : m.title with
        | none =>
          simp [analyze_misconfig_records, req, hs, hti, hk, Bind.bind, Except.bind] at h
        | some title =>
          cases hms : m.message with
          | none =>
            simp [analyze_misconfig_records, req, hs, hti, hms, hk,
              Bind.bind, Except.bind] at h
          | some msg =>
            cases hre : m.resolution with
            | none =>
              simp [analyze_misconfig_records, req, hs, hti, hms, hre, hk,
                Bind.bind, Except.bind] at h
            | some res =>
              cases hrec : analyze_misconfig_records rest with
              | error e =>
                simp [analyze_misconfig_records, req, hs, hti, hms, hre, hk, hrec,
                  Bind.bind, Except.bind] at h
              | ok more =>
                simp only [analyze_misconfig_records, req, hs, hti, hms, hre, hk, hrec,
                  if_pos, Bind.bind, Except.bind, pure, Except.pure, Except.ok.injEq] at h
                intro f hf
                rw [← h] at hf
                rcases hf with _ | ⟨_, hf⟩
                · rfl
                · exact ih hrec f hf
      · have hrest : analyze_misconfig_records rest = .ok out := by
          simpa [analyze_misconfig_records, req, hs, hk, Bind.bind, Except.bind] using h
        exact ih hrest

/-- The policy scan emits exactly one `network_policy` finding per flagged
document. -/
theorem policyFindings_count (ps : List PolicyDoc) :
    (policyFindings ps).countP (fun f => f.type == "network_policy")
      = ps.countP policyFlagged := by
  induction ps with
  | nil => rfl
  | cons p rest ih =>
    by_cases hp : policyFlagged p = true
    · simp [policyFindings, hp, List.countP_cons, ih]
    · simp only [Bool.not_eq_true] at hp
      simp [policyFindings, hp, List.countP_cons, ih]

/-- Totality of `analyze_vulnerabilities` when the directly-subscripted
fields are present (`cvss_score` may be absent; it is defaulted). -/
theorem analyze_vulnerabilities_total {recs : List VulnRecord}
    (h : ∀ r ∈ recs, r.severity.isSome ∧ r.vulnerability_id.isSome
      ∧ r.package_name.isSome ∧ r.description.isSome) :
    ∃ out, analyze_vulnerabilities recs = .ok out := by
  induction recs with
  | nil => exact ⟨[], rfl⟩
  | cons v rest ih =>
    obtain ⟨hs, hid, hpk, hde⟩ := h v (by simp)
    obtain ⟨sev, hs⟩ := Option.isSome_iff_exists.mp hs
    obtain ⟨vid, hid⟩ := Option.isSome_iff_exists.mp hid
    obtain ⟨pkg, hpk⟩ := Option.isSome_iff_exists.mp hpk
    obtain ⟨desc, hde⟩ := Option.isSome_iff_exists.mp hde
    obtain ⟨more, hrec⟩ := ih (fun r hr => h r (by simp [hr]))
    by_cases hk : sev ∈ ["CRITICAL", "HIGH"]
    · exact ⟨{ id := vid, package := pkg, severity := sev,
               cvss_score := v.cvss_score.getD 0, description := desc,
               impact := "Container security vulnerability" } :: more,
        by simp [analyze_vulnerabilities, req, hs, hid, hpk, hde, hk, hrec,
          Bind.bind, Except.bind, pure, Except.pure]⟩
    · exact ⟨more, by simp [analyze_vulnerabilities, req, hs, hk, hrec,
        Bind.bind, Except.bind]⟩

/-- Totality of the inner dependency loop when `SPDXID`, the package name
and the SBOM vulnerability's name and severity are present
(`versionInfo`, `licenseConcluded` and `affectedPackages` may be absent;
they are defaulted). -/
theorem depInner_total {p : SbomPackage} {vulns : List SbomVuln}
    (hp : p.SPDXID.isSome ∧ p.name.isSome)
    (hv : ∀ v ∈ vulns, v.name.isSome ∧ v.severity.isSome) :
    ∃ out, depInner p vulns = .ok out := by
  induction vulns with
  | nil => exact ⟨[], rfl⟩
  | cons v rest ih =>
    obtain ⟨spdx, hsp⟩ := Option.isSome_iff_exists.mp hp.1
    obtain ⟨pname, hpn⟩ := Option.isSome_iff_exists.mp hp.2
    obtain ⟨vname, hvn⟩ := Option.isSome_iff_exists.mp (hv v (by simp)).1
    obtain ⟨vsev, hvs⟩ := Option.isSome_iff_exists.mp (hv v (by simp)).2
    obtain ⟨more, hrec⟩ := ih (fun w hw => hv w (by simp [hw]))
    by_cases hk : spdx ∈ v.affectedPackages.getD []
    · exact ⟨{ package := pname, version := p.versionInfo.getD "unknown",
               vulnerability := vname, severity := vsev,
               license := p.licenseConcluded.getD "unknown" } :: more,
        by simp [depInner, req, hsp, hpn, hvn, hvs, hk, hrec,
          Bind.bind, Except.bind, pure, Except.pure]⟩
    · exact ⟨more, by simp [depInner, req, hsp, hk, hrec, Bind.bind, Except.bind]⟩

/-- Totality of `analyze_dependencies` under the same field-presence
conditions. -/
theorem analyze_dependencies_total {pkgs : List SbomPackage} {vulns : List SbomVuln}
    (hp : ∀ p ∈ pkgs, p.SPDXID.isSome ∧ p.name.isSome)
    (hv : ∀ v ∈ vulns, v.name.isSome ∧ v.severity.isSome) :
    ∃ out, analyze_dependencies pkgs vulns = .ok out := by
  induction pkgs with
  | nil => exact ⟨[], rfl⟩
  | cons p rest ih =>
    obtain ⟨fs, hfs⟩ := depInner_total (hp p (by simp)) hv
    obtain ⟨more, hrec⟩ := ih (fun q hq => hp q (by simp [hq]))
    exact ⟨fs ++ more, by simp [analyze_dependencies, hfs, hrec,
      Bind.bind, Except.bind, pure, Except.pure]⟩

/-- Only the package-intersection rule emits a correlation of type
`vulnerability_dependency_link`, and it does so exactly when the
intersection is non-empty. -/
theorem correlate_findings_link_filter (st : FindingsState) :
    ((correlate_findings st).filter fun x => x.type == "vulnerability_dependency_link")
      = if (vulnPackages st.vulnerabilities ∩ depPackages st.dependencies).Nonempty then
          [{ type := "vulnerability_dependency_link",
             description := "Vulnerable packages found in SBOM",
             linkedPackages := vulnPackages st.vulnerabilities ∩ depPackages st.dependencies,
             impact := "Direct security vulnerability in application dependencies" }]
        else [] := by
  unfold correlate_findings
  split_ifs with h1 h2 h3 h3 <;> simp [List.filter_append]

/-! ## Claim theorems -/

/-- C1: the risk assessor's score is the sum of the fixed per-finding
weights (vulnerability CRITICAL = 10, HIGH = 5; compliance critical = 8,
high = 4; misconfiguration HIGH = 6; all other category/severity
combinations contribute 0), and the level is a pure function of the score
with exact boundaries: score ≥ 20 is critical, 10 ≤ score < 20 high,
5 ≤ score < 10 medium, otherwise low; in particular 19 gives high, 20
critical, 4 low, 5 medium, 9 medium and 10 high. -/
theorem risk_score_weighted_sum_and_level_thresholds
    (t : String) (st : FindingsState) (s : Nat) :
    (assess_risk t st).risk_score =
        (st.vulnerabilities.map vulnPoints).sum
        + (st.compliance_failures.map compliancePoints).sum
        + (st.misconfigurations.map misconfigPoints).sum
    ∧ (assess_risk t st).overall_risk_level = riskLevel (assess_risk t st).risk_score
    ∧ (riskLevel s = "CRITICAL" ↔ 20 ≤ s)
    ∧ (riskLevel s = "HIGH" ↔ 10 ≤ s ∧ s < 20)
    ∧ (riskLevel s = "MEDIUM" ↔ 5 ≤ s ∧ s < 10)
    ∧ (riskLevel s = "LOW" ↔ s < 5)
    ∧ riskLevel 19 = "HIGH" ∧ riskLevel 20 = "CRITICAL" ∧ riskLevel 4 = "LOW"
    ∧ riskLevel 5 = "MEDIUM" ∧ riskLevel 9 = "MEDIUM" ∧ riskLevel 10 = "HIGH" := by
  refine ⟨assess_risk_score_eq t st, assess_risk_level_eq t st, ?_, ?_, ?_, ?_,
    by decide, by decide, by decide, by decide, by decide, by decide⟩
  all_goals unfold riskLevel
  all_goals split_ifs with h1 h2 h3 <;> simp_all <;> omega

/-- C2: a correlation of type `vulnerability_dependency_link` is emitted if
and only if the package sets of the vulnerability findings and of the
dependency findings intersect; at most one such correlation exists; and it
carries exactly the intersection, hence covers precisely the findings whose
package lies in both sets. -/
theorem vulnerability_dependency_link_iff (st : FindingsState) :
    (((correlate_findings st).filter fun x => x.type == "vulnerability_dependency_link") ≠ []
        ↔ (vulnPackages st.vulnerabilities ∩ depPackages st.dependencies).Nonempty)
    ∧ ((correlate_findings st).filter
        fun x => x.type == "vulnerability_dependency_link").length ≤ 1
    ∧ (∀ x ∈ (correlate_findings st).filter
          fun c => c.type == "vulnerability_dependency_link",
        x.linkedPackages = vulnPackages st.vulnerabilities ∩ depPackages st.dependencies)
    ∧ (∀ x ∈ (correlate_findings st).filter
          fun c => c.type == "vulnerability_dependency_link",
        ∀ f ∈ st.vulnerabilities,
          (f.package ∈ x.linkedPackages ↔ f.package ∈ depPackages st.dependencies))
    ∧ (∀ x ∈ (correlate_findings st).filter
          fun c => c.type == "vulnerability_dependency_link",
        ∀ g ∈ st.dependencies,
          (g.package ∈ x.linkedPackages ↔ g.package ∈ vulnPackages st.vulnerabilities)) := by
  have hmemv : ∀ f ∈ st.vulnerabilities, f.package ∈ vulnPackages st.vulnerabilities := by
    intro f hf
    simp only [vulnPackages, List.mem_toFinset, List.mem_map]
    exact ⟨f, hf, rfl⟩
  have hmemd : ∀ g ∈ st.dependencies, g.package ∈ depPackages st.dependencies := by
    intro g hg
    simp only [depPackages, List.mem_toFinset, List.mem_map]
    exact ⟨g, hg, rfl⟩
  rw [correlate_findings_link_filter]
  by_cases hP : (vulnPackages st.vulnerabilities ∩ depPackages st.dependencies).Nonempty
  · refine ⟨by simp [hP], by simp [hP], ?_, ?_, ?_⟩
    · intro x hx
      simp only [if_pos hP, List.mem_singleton] at hx
      subst hx
      rfl
    · intro x hx f hf
      simp only [if_pos hP, List.mem_singleton] at hx
      subst hx
      simp [Finset.mem_inter, hmemv f hf]
    · intro x hx g hg
      simp only [if_pos hP, List.mem_singleton] at hx
      subst hx
      simp [Finset.mem_inter, hmemd g hg]
  · refine ⟨by simp [hP], by simp [hP], ?_, ?_, ?_⟩ <;> simp [if_neg hP]

/-- C10: the risk assessment reads only the vulnerability, compliance and
misconfiguration categories — two findings states agreeing on those three
categories receive identical assessments (same score, level, factors and
affected components), whatever their dependency, network-issue and
application-error findings are. -/
theorem assess_risk_ignores_other_categories (t : String) (st st' : FindingsState)
    (hv : st.vulnerabilities = st'.vulnerabilities)
    (hc : st.compliance_failures = st'.compliance_failures)
    (hm : st.misconfigurations = st'.misconfigurations) :
    assess_risk t st = assess_risk t st' := by
  unfold assess_risk
  rw [hv, hc, hm]

/-- Witness for C10: adding a critical dependency finding, a network issue
and an application error changes nothing in the risk assessment. -/
theorem assess_risk_ignores_other_categories_witness :
    assess_risk "payment-service"
      { vulnerabilities := [{ id := "CVE-1", package := "openssl", severity := "CRITICAL",
                              cvss_score := 9, description := "d", impact := "i" }],
        compliance_failures := [], misconfigurations := [],
        dependencies := [], network_issues := [], application_errors := [] }
    = assess_risk "payment-service"
      { vulnerabilities := [{ id := "CVE-1", package := "openssl", severity := "CRITICAL",
                              cvss_score := 9, description := "d", impact := "i" }],
        compliance_failures := [], misconfigurations := [],
        dependencies := [{ package := "openssl", version := "1.0", vulnerability := "CVE-1",
                           severity := "CRITICAL", license := "MIT" }],
        network_issues := ["issue"],
        application_errors := [{ type := "http_error", detail := "405", message := "m",
                                 source := "s", impact := "i" }] } :=
  assess_risk_ignores_other_categories "payment-service" _ _ rfl rfl rfl

/-- C7: permuting the findings supplied to the risk assessor changes
neither the score, nor the level, nor the set of factor strings; the factor
list of any state is always enumerated in category precedence order
(vulnerabilities, then compliance failures, then misconfigurations). -/
theorem risk_assessment_order_independent (t : String) (st st' : FindingsState)
    (hv : List.Perm st.vulnerabilities st'.vulnerabilities)
    (hc : List.Perm st.compliance_failures st'.compliance_failures)
    (hm : List.Perm st.misconfigurations st'.misconfigurations)
    (_hd : List.Perm st.dependencies st'.dependencies)
    (_hn : List.Perm st.network_issues st'.network_issues)
    (_ha : List.Perm st.application_errors st'.application_errors) :
    (assess_risk t st).risk_score = (assess_risk t st').risk_score
    ∧ (assess_risk t st).overall_risk_level = (assess_risk t st').overall_risk_level
    ∧ List.Perm (assess_risk t st).risk_factors (assess_risk t st').risk_factors
    ∧ (∀ x, x ∈ (assess_risk t st).risk_factors ↔ x ∈ (assess_risk t st').risk_factors)
    ∧ (assess_risk t st).risk_factors
        = st.vulnerabilities.flatMap vulnFactorOf
          ++ st.compliance_failures.flatMap complianceFactorOf
          ++ st.misconfigurations.flatMap misconfigFactorOf := by
  have hscore : (assess_risk t st).risk_score = (assess_risk t st').risk_score := by
    rw [assess_risk_score_eq, assess_risk_score_eq,
      (hv.map vulnPoints).sum_eq, (hc.map compliancePoints).sum_eq,
      (hm.map misconfigPoints).sum_eq]
  have hfac : List.Perm (assess_risk t st).risk_factors (assess_risk t st').risk_factors := by
    rw [assess_risk_factors_eq, assess_risk_factors_eq]
    exact ((permFlatMap vulnFactorOf hv).append (permFlatMap complianceFactorOf hc)).append
      (permFlatMap misconfigFactorOf hm)
  refine ⟨hscore, ?_, hfac, fun x => hfac.mem_iff, assess_risk_factors_eq t st⟩
  rw [assess_risk_level_eq, assess_risk_level_eq, hscore]

/-- Witness for C7: swapping two vulnerability findings leaves the score
unchanged and permutes the factors. -/
theorem risk_assessment_order_independent_witness :
    List.Perm
      [({ id := "CVE-A", package := "a", severity := "CRITICAL", cvss_score := 9,
          description := "d", impact := "i" } : VulnFinding),
       { id := "CVE-B", package := "b", severity := "HIGH", cvss_score := 7,
         description := "d", impact := "i" }]
      [{ id := "CVE-B", package := "b", severity := "HIGH", cvss_score := 7,
         description := "d", impact := "i" },
       { id := "CVE-A", package := "a", severity := "CRITICAL", cvss_score := 9,
         description := "d", impact := "i" }]
    ∧ (assess_risk "payment-service"
        { vulnerabilities :=
            [{ id := "CVE-A", package := "a", severity := "CRITICAL", cvss_score := 9,
               description := "d", impact := "i" },
             { id := "CVE-B", package := "b", severity := "HIGH", cvss_score := 7,
               description := "d", impact := "i" }],
          compliance_failures := [], misconfigurations := [], dependencies := [],
          network_issues := [], application_errors := [] }).risk_score
      = (assess_risk "payment-service"
          { vulnerabilities :=
              [{ id := "CVE-B", package := "b", severity := "HIGH", cvss_score := 7,
                 description := "d", impact := "i" },
               { id := "CVE-A", package := "a", severity := "CRITICAL", cvss_score := 9,
                 description := "d", impact := "i" }],
            compliance_failures := [], misconfigurations := [], dependencies := [],
            network_issues := [], application_errors := [] }).risk_score := by
  refine ⟨by decide, ?_⟩
  exact (risk_assessment_order_independent "payment-service" _ _ (by decide)
    (.refl _) (.refl _) (.refl _) (.refl _) (.refl _)).1

/-- Counterexample for C3: the severity filter is an exact string
comparison, not case-insensitive — a vulnerability record with severity
`High` (lowercase form `high`) is dropped, as is a compliance record with
severity `HIGH`. -/
theorem severity_filter_not_case_insensitive :
    toLowerStr "High" = "high"
    ∧ analyze_vulnerabilities
        [⟨some "CVE-2024-0001", some "openssl", some "High", some 7, some "d"⟩] = .ok []
    ∧ toLowerStr "HIGH" = "high"
    ∧ analyze_compliance_failures
        [⟨some "5.1.1", some "d", some "HIGH", some "r"⟩] = .ok [] :=
  ⟨by decide, rfl, by decide, rfl⟩

/-- C3 (amended): each extractor keeps a record exactly when its severity
field matches the artifact's fixed-case convention — `CRITICAL`/`HIGH`
verbatim for vulnerability records, `critical`/`high` verbatim for
compliance records — emitting one finding per kept record; in particular
the output is empty exactly when no record matches. -/
theorem severity_filter_exact_case (vrecs : List VulnRecord) (crecs : List ComplianceRecord)
    (vout : List VulnFinding) (cout : List ComplianceFinding)
    (hv : analyze_vulnerabilities vrecs = .ok vout)
    (hc : analyze_compliance_failures crecs = .ok cout) :
    vout.length = vrecs.countP vulnKeptPred
    ∧ cout.length = crecs.countP complianceKeptPred
    ∧ (vout = [] ↔ vrecs.countP vulnKeptPred = 0)
    ∧ (cout = [] ↔ crecs.countP complianceKeptPred = 0) := by
  have h1 := (analyze_vulnerabilities_spec hv).length_eq
  have h2 := (analyze_compliance_failures_spec hc).length_eq
  rw [← List.countP_eq_length_filter] at h1 h2
  refine ⟨h1, h2, ?_, ?_⟩
  · rw [← h1]; exact List.length_eq_zero.symm
  · rw [← h2]; exact List.length_eq_zero.symm

/-- Witness for C3 (amended): one `CRITICAL` record is kept, one `medium`
record is dropped; one `high` compliance record is kept. -/
theorem severity_filter_exact_case_witness :
    analyze_vulnerabilities
      [⟨some "CVE-1", some "openssl", some "CRITICAL", some 9, some "d"⟩,
       ⟨some "CVE-2", some "zlib", some "medium", none, none⟩]
      = .ok [⟨"CVE-1", "openssl", "CRITICAL", 9, "d", "Container security vulnerability"⟩]
    ∧ analyze_compliance_failures [⟨some "5.1.1", some "d", some "high", some "r"⟩]
      = .ok [⟨"5.1.1", "d", "high", "r", "Kubernetes security compliance violation"⟩]
    ∧ ([⟨"CVE-1", "openssl", "CRITICAL", 9, "d", "Container security vulnerability"⟩]
        : List VulnFinding).length
        = [(⟨some "CVE-1", some "openssl", some "CRITICAL", some 9, some "d"⟩ : VulnRecord),
           ⟨some "CVE-2", some "zlib", some "medium", none, none⟩].countP vulnKeptPred
    ∧ ([⟨"5.1.1", "d", "high", "r", "Kubernetes security compliance violation"⟩]
        : List ComplianceFinding).length
        = [(⟨some "5.1.1", some "d", some "high", some "r"⟩ : ComplianceRecord)].countP
            complianceKeptPred := by
  refine ⟨rfl, rfl, ?_, ?_⟩
  · exact (severity_filter_exact_case
      [⟨some "CVE-1", some "openssl", some "CRITICAL", some 9, some "d"⟩,
       ⟨some "CVE-2", some "zlib", some "medium", none, none⟩]
      [⟨some "5.1.1", some "d", some "high", some "r"⟩]
      [⟨"CVE-1", "openssl", "CRITICAL", 9, "d", "Container security vulnerability"⟩]
      [⟨"5.1.1", "d", "high", "r", "Kubernetes security compliance violation"⟩]
      rfl rfl).1
  · exact (severity_filter_exact_case
      [⟨some "CVE-1", some "openssl", some "CRITICAL", some 9, some "d"⟩,
       ⟨some "CVE-2", some "zlib", some "medium", none, none⟩]
      [⟨some "5.1.1", some "d", some "high", some "r"⟩]
      [⟨"CVE-1", "openssl", "CRITICAL", 9, "d", "Container security vulnerability"⟩]
      [⟨"5.1.1", "d", "high", "r", "Kubernetes security compliance violation"⟩]
      rfl rfl).2.1

/-- Counterexample for C5: a record with an unrecognized severity is
silently dropped by the high/critical filter — it is not normalized to low
and no finding (or warning) is produced for it. -/
theorem unrecognized_severity_not_normalized :
    analyze_vulnerabilities
      [⟨some "CVE-9", some "pkg", some "unknown-level", some 3, some "d"⟩] = .ok [] := rfl

/-- C5 (amended): every extracted vulnerability finding has severity
exactly `CRITICAL` or `HIGH`; records with any other severity value
(recognized or not) are excluded without any normalization or warning. -/
theorem extracted_vulnerability_severities (recs : List VulnRecord) (out : List VulnFinding)
    (h : analyze_vulnerabilities recs = .ok out) :
    ∀ f ∈ out, f.severity = "CRITICAL" ∨ f.severity = "HIGH" := by
  intro f hf
  obtain ⟨r, hr, hsev, _⟩ := forall2_mem_left (analyze_vulnerabilities_spec h) f hf
  have hkept := List.of_mem_filter hr
  simp only [vulnKeptPred, decide_eq_true_eq] at hkept
  rcases hkept with h1 | h1
  · left; exact Option.some.inj (by rw [hsev, h1])
  · right; exact Option.some.inj (by rw [hsev, h1])

/-- Witness for C5 (amended): the finding kept from a `CRITICAL` record has
severity `CRITICAL`. -/
theorem extracted_vulnerability_severities_witness :
    analyze_vulnerabilities [⟨some "CVE-1", some "openssl", some "CRITICAL", some 9, some "d"⟩]
      = .ok [⟨"CVE-1", "openssl", "CRITICAL", 9, "d", "Container security vulnerability"⟩]
    ∧ ((⟨"CVE-1", "openssl", "CRITICAL", 9, "d", "Container security vulnerability"⟩
          : VulnFinding).severity = "CRITICAL"
        ∨ (⟨"CVE-1", "openssl", "CRITICAL", 9, "d", "Container security vulnerability"⟩
          : VulnFinding).severity = "HIGH") := by
  refine ⟨rfl, ?_⟩
  exact extracted_vulnerability_severities
    [⟨some "CVE-1", some "openssl", some "CRITICAL", some 9, some "d"⟩]
    [⟨"CVE-1", "openssl", "CRITICAL", 9, "d", "Container security vulnerability"⟩]
    rfl _ (by simp)

/-- Counterexample for C6: a kept vulnerability record missing its optional
`description` field makes extraction fail with a KeyError instead of
defaulting — extraction does raise for a well-formed but incomplete
record. -/
theorem extraction_raises_on_missing_description :
    analyze_vulnerabilities [⟨some "CVE-1", some "openssl", some "HIGH", none, none⟩]
      = .error "KeyError: description" := rfl

/-- C6 (amended): extraction returns normally whenever the
directly-subscripted fields are present — vulnerability `severity`,
`vulnerability_id`, `package_name`, `description`; SBOM package `SPDXID`
and `name`; SBOM vulnerability `name` and `severity` — while `cvss_score`,
`versionInfo`, `licenseConcluded` and `affectedPackages` may be absent and
are defaulted (to 0, `unknown`, `unknown` and the empty list). -/
theorem extraction_total_when_required_fields_present
    (vrecs : List VulnRecord) (pkgs : List SbomPackage) (vulns : List SbomVuln)
    (hr : ∀ r ∈ vrecs, r.severity.isSome ∧ r.vulnerability_id.isSome
      ∧ r.package_name.isSome ∧ r.description.isSome)
    (hp : ∀ p ∈ pkgs, p.SPDXID.isSome ∧ p.name.isSome)
    (hv : ∀ v ∈ vulns, v.name.isSome ∧ v.severity.isSome) :
    (∃ out, analyze_vulnerabilities vrecs = .ok out)
    ∧ (∃ out, analyze_dependencies pkgs vulns = .ok out) :=
  ⟨analyze_vulnerabilities_total hr, analyze_dependencies_total hp hv⟩

/-- Witness for C6 (amended): records whose defaulted fields are all absent
still extract successfully. -/
theorem extraction_total_when_required_fields_present_witness :
    (∀ r ∈ [(⟨some "CVE-1", some "openssl", some "HIGH", none, some "d"⟩ : VulnRecord)],
        r.severity.isSome ∧ r.vulnerability_id.isSome
          ∧ r.package_name.isSome ∧ r.description.isSome)
    ∧ (∃ out, analyze_vulnerabilities
        [⟨some "CVE-1", some "openssl", some "HIGH", none, some "d"⟩] = .ok out)
    ∧ (∃ out, analyze_dependencies [⟨some "SPDXRef-1", some "openssl", none, none⟩]
        [⟨some "CVE-1", some "HIGH", none⟩] = .ok out) := by
  refine ⟨by decide, ?_⟩
  exact extraction_total_when_required_fields_present
    [⟨some "CVE-1", some "openssl", some "HIGH", none, some "d"⟩]
    [⟨some "SPDXRef-1", some "openssl", none, none⟩]
    [⟨some "CVE-1", some "HIGH", none⟩]
    (by decide) (by decide) (by decide)

/-- Counterexample for C4: a network-policy document whose body contains
both `allow` and `any` (case-insensitively) yields no misconfiguration
finding when its filename does not contain `payment-service` — the scan is
restricted by filename, not applied to every document. -/
theorem network_policy_scan_filename_restricted :
    strContains (toLowerStr "allow from any") "allow" = true
    ∧ strContains (toLowerStr "allow from any") "any" = true
    ∧ analyze_misconfigurations [] [⟨"web-service-policy.yaml", "allow from any"⟩] = .ok [] :=
  ⟨by decide, by decide, rfl⟩

/-- C4 (amended): the misconfiguration extractor synthesizes exactly one
`network_policy` finding per policy document whose filename contains
`payment-service` and whose body case-insensitively contains both `allow`
and `any` as substrings; all other documents synthesize none (and the
Trivy-derived findings are never of type `network_policy`). -/
theorem network_policy_findings_count (mrecs : List MisconfigRecord) (ps : List PolicyDoc)
    (out : List MisconfigFinding)
    (h : analyze_misconfigurations mrecs ps = .ok out) :
    out.countP (fun f => f.type == "network_policy") = ps.countP policyFlagged := by
  cases hrec : analyze_misconfig_records mrecs with
  | error e => simp [analyze_misconfigurations, hrec, Bind.bind, Except.bind] at h
  | ok fs =>
    have hout : out = fs ++ policyFindings ps := by
      have h2 := h
      simp only [analyze_misconfigurations, hrec, Bind.bind, Except.bind, pure, Except.pure,
        Except.ok.injEq] at h2
      exact h2.symm
    have hz : fs.countP (fun f => f.type == "network_policy") = 0 := by
      rw [List.countP_eq_zero]
      intro f hf
      have := analyze_misconfig_records_types hrec f hf
      simp [this]
    rw [hout, List.countP_append, policyFindings_count, hz, Nat.zero_add]

/-- Witness for C4 (amended): of three documents, only the
`payment-service` one containing `Allow ... ANY` is flagged. -/
theorem network_policy_findings_count_witness :
    analyze_misconfigurations []
      [⟨"payment-service-policy.yaml", "Allow traffic from ANY source"⟩,
       ⟨"payment-service-egress.yaml", "allow specific-namespace"⟩,
       ⟨"web-policy.yaml", "allow any"⟩]
      = .ok [⟨"network_policy", "Overly permissive network policy", "HIGH",
             "Network policy allows traffic from any source",
             "Restrict network policies to specific namespaces/services"⟩]
    ∧ ([⟨"network_policy", "Overly permissive network policy", "HIGH",
         "Network policy allows traffic from any source",
         "Restrict network policies to specific namespaces/services"⟩]
        : List MisconfigFinding).countP (fun f => f.type == "network_policy")
      = [(⟨"payment-service-policy.yaml", "Allow traffic from ANY source"⟩ : PolicyDoc),
         ⟨"payment-service-egress.yaml", "allow specific-namespace"⟩,
         ⟨"web-policy.yaml", "allow any"⟩].countP policyFlagged := by
  refine ⟨rfl, ?_⟩
  exact network_policy_findings_count []
    [⟨"payment-service-policy.yaml", "Allow traffic from ANY source"⟩,
     ⟨"payment-service-egress.yaml", "allow specific-namespace"⟩,
     ⟨"web-policy.yaml", "allow any"⟩]
    [⟨"network_policy", "Overly permissive network policy", "HIGH",
      "Network policy allows traffic from any source",
      "Restrict network policies to specific namespaces/services"⟩]
    rfl

/-- Counterexample for C8: no component of the aggregated analysis result
is a warnings list — neither the top-level attributes assembled by
`generate_report`, nor the risk-assessment dict, nor the findings
categories, nor the remediation-plan buckets contain a `warnings` entry. -/
theorem no_warnings_component :
    "warnings" ∉ analysisResultFields
    ∧ "warnings" ∉ riskAssessmentFields
    ∧ "warnings" ∉ findingsCategories
    ∧ "warnings" ∉ remediationPlanBuckets := by decide

/-- C8 (amended): the aggregated result handed to the renderer consists
exactly of the findings (by category), the correlations, the risk
assessment and the remediation plan; it carries no warnings list, so
skipped artifacts or defaulted values are not surfaced. -/
theorem aggregated_result_components :
    analysisResultFields
      = ["findings", "correlations", "risk_assessment", "remediation_plan"]
    ∧ riskAssessmentFields
      = ["overall_risk_level", "risk_score", "risk_factors", "affected_components"]
    ∧ "warnings" ∉ analysisResultFields
    ∧ "warnings" ∉ riskAssessmentFields := by decide

/-- Counterexample for C9: a scan input listing the same vulnerability id
twice yields two findings sharing category and id — (category, id) pairs
are not unique in general. -/
theorem duplicate_ids_not_deduplicated :
    analyze_vulnerabilities
      [⟨some "CVE-1", some "openssl", some "HIGH", some 7, some "d"⟩,
       ⟨some "CVE-1", some "openssl", some "HIGH", some 7, some "d"⟩]
      = .ok [⟨"CVE-1", "openssl", "HIGH", 7, "d", "Container security vulnerability"⟩,
             ⟨"CVE-1", "openssl", "HIGH", 7, "d", "Container security vulnerability"⟩]
    ∧ ¬ (([⟨"CVE-1", "openssl", "HIGH", 7, "d", "Container security vulnerability"⟩,
           ⟨"CVE-1", "openssl", "HIGH", 7, "d", "Container security vulnerability"⟩]
          : List VulnFinding).map fun f => ("vulnerabilities", f.id)).Nodup :=
  ⟨rfl, by decide⟩

/-- C9 (amended): provided the identifiers are pairwise distinct within
the vulnerability-scan input and within the compliance input, the
(category, id) pairs of all extracted vulnerability and compliance
findings are pairwise distinct (the extractors preserve input order and
ids and never merge records; the two categories are disjoint by name). -/
theorem category_id_pairs_nodup (vrecs : List VulnRecord) (crecs : List ComplianceRecord)
    (vout : List VulnFinding) (cout : List ComplianceFinding)
    (hv : analyze_vulnerabilities vrecs = .ok vout)
    (hc : analyze_compliance_failures crecs = .ok cout)
    (hvn : (vrecs.map fun r => r.vulnerability_id).Nodup)
    (hcn : (crecs.map fun r => r.id).Nodup) :
    ((vout.map fun f => ("vulnerabilities", f.id))
      ++ (cout.map fun f => ("compliance_failures", f.id))).Nodup := by
  have hvm : (vout.map fun f => some f.id)
      = (vrecs.filter vulnKeptPred).map fun r => r.vulnerability_id :=
    forall2_map_eq ((analyze_vulnerabilities_spec hv).imp fun a b hab => hab.2)
  have hcm : (cout.map fun f => some f.id)
      = (crecs.filter complianceKeptPred).map fun r => r.id :=
    forall2_map_eq ((analyze_compliance_failures_spec hc).imp fun a b hab => hab.2)
  have hvsub : List.Sublist ((vrecs.filter vulnKeptPred).map fun r => r.vulnerability_id)
      (vrecs.map fun r => r.vulnerability_id) := (List.filter_sublist vrecs).map _
  have hcsub : List.Sublist ((crecs.filter complianceKeptPred).map fun r => r.id)
      (crecs.map fun r => r.id) := (List.filter_sublist crecs).map _
  have hnd1 : (vout.map fun f => some f.id).Nodup := by
    rw [hvm]; exact hvsub.nodup hvn
  have hnd1c : (cout.map fun f => some f.id).Nodup := by
    rw [hcm]; exact hcsub.nodup hcn
  have hnd2 : (vout.map fun f => f.id).Nodup := by
    have h2 : ((vout.map fun f => f.id).map some).Nodup := by
      simpa [List.map_map, Function.comp] using hnd1
    exact h2.of_map some
  have hnd2c : (cout.map fun f => f.id).Nodup := by
    have h2 : ((cout.map fun f => f.id).map some).Nodup := by
      simpa [List.map_map, Function.comp] using hnd1c
    exact h2.of_map some
  have hinjv : Function.Injective (fun i => (("vulnerabilities", i) : String × String)) := by
    intro a b hab
    simpa using hab
  have hinjc : Function.Injective (fun i => (("compliance_failures", i) : String × String)) := by
    intro a b hab
    simpa using hab
  have hpair1 : (vout.map fun f => (("vulnerabilities", f.id) : String × String)).Nodup := by
    have h2 := hnd2.map hinjv
    simpa [List.map_map, Function.comp] using h2
  have hpair2 : (cout.map fun f => (("compliance_failures", f.id) : String × String)).Nodup := by
    have h2 := hnd2c.map hinjc
    simpa [List.map_map, Function.comp] using h2
  refine hpair1.append hpair2 ?_
  intro x hx hx'
  simp only [List.mem_map] at hx hx'
  obtain ⟨f, _, hf⟩ := hx
  obtain ⟨g, _, hg⟩ := hx'
  rw [← hf] at hg
  simp at hg

/-- Witness for C9 (amended): distinct input ids give distinct
(category, id) pairs. -/
theorem category_id_pairs_nodup_witness :
    analyze_vulnerabilities
      [⟨some "CVE-1", some "openssl", some "HIGH", some 7, some "d"⟩,
       ⟨some "CVE-2", some "zlib", some "CRITICAL", some 9, some "d"⟩]
      = .ok [⟨"CVE-1", "openssl", "HIGH", 7, "d", "Container security vulnerability"⟩,
             ⟨"CVE-2", "zlib", "CRITICAL", 9, "d", "Container security vulnerability"⟩]
    ∧ (([⟨"CVE-1", "openssl", "HIGH", 7, "d", "Container security vulnerability"⟩,
         ⟨"CVE-2", "zlib", "CRITICAL", 9, "d", "Container security vulnerability"⟩]
          : List VulnFinding).map (fun f => ("vulnerabilities", f.id))
        ++ (([⟨"5.1.1", "d", "high", "r", "Kubernetes security compliance violation"⟩]
          : List ComplianceFinding).map fun f => ("compliance_failures", f.id))).Nodup := by
  refine ⟨rfl, ?_⟩
  exact category_id_pairs_nodup
    [⟨some "CVE-1", some "openssl", some "HIGH", some 7, some "d"⟩,
     ⟨some "CVE-2", some "zlib", some "CRITICAL", some 9, some "d"⟩]
    [⟨some "5.1.1", some "d", some "high", some "r"⟩]
    [⟨"CVE-1", "openssl", "HIGH", 7, "d", "Container security vulnerability"⟩,
     ⟨"CVE-2", "zlib", "CRITICAL", 9, "d", "Container security vulnerability"⟩]
    [⟨"5.1.1", "d", "high", "r", "Kubernetes security compliance violation"⟩]
    rfl rfl (by decide) (by decide)
